import Mathlib

/-!
# Verification of the DepthPro fast image processor

Shallow embedding of `DepthProImageProcessorFast`
(`src/transformers/models/depth_pro/image_processing_depth_pro_fast.py`):
the transform-construction (`_build_transforms`), validation
(`_validate_input_arguments`), batching (`preprocess`) and depth
post-processing (`post_process_depth_estimation`) logic.

Modelling conventions:
* Machine floats are modelled as rationals (`ℚ`); the external tensor
  library's transcendental kernels (`torch.tan`, `torch.deg2rad`) and its
  spatial interpolation (`torch.nn.functional.interpolate`,
  `torchvision.transforms.Resize`) are taken as opaque function parameters,
  since the spec scopes the tensor-computation library out as an external
  collaborator.  Everything the repository itself computes (clamping,
  reciprocal, the focal formula, list bookkeeping, shape bookkeeping,
  validation) is embedded concretely.
* A tensor is a shape (list of dimension extents) together with a flat
  row-major data list.
-/

namespace DepthPro

/-- A tensor: a shape (list of dimension extents) and flat row-major data.
Depth maps enter `post_process_depth_estimation` as rank-2 tensors. -/
structure Tensor where
  shape : List Nat
  data : List ℚ
deriving DecidableEq

/-- Embeds `torch.Tensor.unsqueeze i`: insert a dimension of extent 1 at position
`i`; the flat data is unchanged. -/
def Tensor.unsqueeze (t : Tensor) (i : Nat) : Tensor :=
  ⟨t.shape.insertIdx i 1, t.data⟩

/-- Embeds `torch.Tensor.squeeze()` with no arguments: remove every dimension of
extent 1 from the shape; the flat data is unchanged. -/
def Tensor.squeezeAll (t : Tensor) : Tensor :=
  ⟨t.shape.filter (fun d => d ≠ 1), t.data⟩

/-- Embeds `torch.clamp(x, min=lo, max=hi)` on one element. -/
def clampQ (lo hi x : ℚ) : ℚ := min (max x lo) hi

/-- One element of the inverse-depth step at line 383:
`1.0 / torch.clamp(predicted_depth, min=1e-4, max=1e4)`. -/
def invDepthElem (x : ℚ) : ℚ := 1 / clampQ ((1 : ℚ)/10000) 10000 x

/-- The elementwise inverse-depth step applied to a whole tensor. -/
def Tensor.invDepth (t : Tensor) : Tensor :=
  ⟨t.shape, t.data.map invDepthElem⟩

/-- The resampling filters of `PILImageResampling`. -/
inductive Resample where
  | nearest
  | box
  | bilinear
  | hamming
  | bicubic
  | lanczos
deriving DecidableEq

/-- Opaque spatial interpolation kernel of the external tensor library:
given the resampling mode (standing for the value of
`pil_torch_interpolation_mapping[resample]`), the antialias flag, the input
spatial extent `(h, w)`, the requested spatial extent `(th, tw)` and the
flat input data, it returns the flat output data.  Contracts on it (such
as the output holding `th * tw` values) are stated as hypotheses where
needed. -/
def InterpFn : Type :=
  Resample → Bool → Nat × Nat → Nat × Nat → List ℚ → List ℚ

/-- Embeds `torch.nn.functional.interpolate(input, size, mode, antialias)` for the
rank-4 `(N, C, H, W)` input used at lines 374-380: the two trailing
dimensions are replaced by the requested size and the data is produced by
the opaque kernel.  In this file the input is always rank-4 with
`N = C = 1` (a rank-2 depth map after two `unsqueeze`s), so the fallback
branch (where the library would raise) is never reached. -/
def interpolateNCHW (interp : InterpFn) (mode : Resample) (antialias : Bool)
    (size : Nat × Nat) (t : Tensor) : Tensor :=
  match t.shape with
  | [n, c, h, w] => ⟨[n, c, size.1, size.2], interp mode antialias (h, w) size t.data⟩
  | _ => t

/-- The corrected focal-length scalar of line 369:
`0.5 * width / torch.tan(0.5 * torch.deg2rad(fov))`, with the library's
`tan` and `deg2rad` kernels as opaque parameters. -/
def focal (tanF d2r : ℚ → ℚ) (width fov : ℚ) : ℚ :=
  (1/2 : ℚ) * width / tanF ((1/2 : ℚ) * d2r fov)

/-- The body of the per-sample loop of `post_process_depth_estimation`
(lines 362-385).  `resample` and `antialias` are the processor's configured
`self.resample` and `self.antialias`.  Returns the processed depth map and
the value appended to the `fov` output list (if any):
* with a target size and a fov, the depth is scaled by `width / focal`
  (line 370), the focal is recorded (line 371), then the map is
  interpolated to the target size and squeezed (lines 374-380);
* the final step is always the clamp-and-reciprocal inversion (line 383). -/
def processSample (interp : InterpFn) (tanF d2r : ℚ → ℚ)
    (resample : Resample) (antialias : Bool)
    (d : Tensor) (fov : Option ℚ) (targetSize : Option (Nat × Nat)) :
    Tensor × Option ℚ :=
  match targetSize with
  | none => (d.invDepth, none)
  | some ts =>
    let scaled : Tensor × Option ℚ :=
      match fov with
      | none => (d, none)
      | some fv =>
        let width : ℚ := (ts.2 : ℚ)
        let f := focal tanF d2r width fv
        (⟨d.shape, d.data.map (fun x => x * width / f)⟩, some f)
    let resized :=
      (interpolateNCHW interp resample antialias ts
        ((scaled.1.unsqueeze 0).unsqueeze 1)).squeezeAll
    (resized.invDepth, scaled.2)

/-- Line 359: `fovs = [None] * len(predicted_depths) if fovs is None else fovs`. -/
def fovEntries (n : Nat) (fovs : Option (List (Option ℚ))) : List (Option ℚ) :=
  fovs.getD (List.replicate n none)

/-- Line 360: `target_sizes = [None] * len(predicted_depths) if target_sizes is None else target_sizes`. -/
def tsEntries (n : Nat) (targetSizes : Option (List (Option (Nat × Nat)))) :
    List (Option (Nat × Nat)) :=
  targetSizes.getD (List.replicate n none)

/-- The error kinds the unit raises: Python `ValueError` (all validation
failures) and the runtime errors of the external tensor library. -/
inductive PError where
  | valueError (msg : String)
  | runtimeError (msg : String)
deriving DecidableEq

/-- The (identical) message of both length-mismatch checks, lines 346-352. -/
def lengthMismatchMsg : String :=
  "Make sure that you pass in as many fov values as the batch dimension of the predicted depth"

/-- The guard `(arg is not None) and (len(predicted_depths) != len(arg))`
of the two length checks at lines 345 and 349. -/
def hasLengthMismatch (n : Nat) : Option (List α) → Bool
  | none => false
  | some xs => n ≠ xs.length

/-- The result dictionary of `post_process_depth_estimation`. -/
structure PostOutputs where
  predicted_depth : List Tensor
  fov : Option (List ℚ)
deriving DecidableEq

/-- Embeds `post_process_depth_estimation` (lines 310-386).  `fovs` entries are
the per-sample fov tensors; `targetSizes` entries are the per-sample
`(height, width)` pairs; either list may carry `none` entries, which the
loop guards with `is not None` checks.  The two length checks (lines
345-352) run before the per-sample loop; the `fov` output list exists only
when `fovs` was supplied, and values are appended to it only inside the
`target_size`/`fov` guards (line 371), which the pure translation renders
as a `filterMap` over the per-sample results in loop order. -/
def postProcessDepthEstimation (interp : InterpFn) (tanF d2r : ℚ → ℚ)
    (resample : Resample) (antialias : Bool)
    (predictedDepths : List Tensor)
    (fovs : Option (List (Option ℚ)))
    (targetSizes : Option (List (Option (Nat × Nat)))) :
    Except PError PostOutputs :=
  if hasLengthMismatch predictedDepths.length fovs then
    .error (.valueError lengthMismatchMsg)
  else if hasLengthMismatch predictedDepths.length targetSizes then
    .error (.valueError lengthMismatchMsg)
  else
    let n := predictedDepths.length
    let results :=
      (predictedDepths.zip ((fovEntries n fovs).zip (tsEntries n targetSizes))).map
        (fun p => processSample interp tanF d2r resample antialias p.1 p.2.1 p.2.2)
    .ok { predicted_depth := results.map Prod.fst
        , fov := if fovs.isSome then some (results.filterMap Prod.snd) else none }

/-- Embeds `ChannelDimension`: channel-first, channel-last, or no channel axis. -/
inductive ChannelDim where
  | first
  | last
  | noChannel
deriving DecidableEq

/-- Embeds `ImageType` as `preprocess` distinguishes it: the three supported
detected element types, with `other` standing for any unsupported one. -/
inductive ImageType where
  | pil
  | torch
  | numpy
  | other
deriving DecidableEq

/-- The canonical `{"height": h, "width": w}` size record (`SizeDict`). -/
structure SizeD where
  height : Nat
  width : Nat
deriving DecidableEq

/-- One step of the composed transform built by `_build_transforms`
(lines 140-168).  The constructors mirror, in order of appearance:
`PILToTensor()`, `NumpyToTensor()`,
`FusedRescaleNormalize(mean, std, rescale_factor)`,
`Rescale(rescale_factor)`, `Normalize(mean, std)` and
`Resize(size, interpolation, antialias)`. -/
inductive Transform where
  | pilToTensor
  | numpyToTensor
  | fusedRescaleNormalize (mean std : List ℚ) (factor : ℚ)
  | rescale (factor : ℚ)
  | normalize (mean std : List ℚ)
  | resize (size : SizeD) (resample : Resample) (antialias : Bool)
deriving DecidableEq

/-- Embeds `_build_transforms` (lines 124-168): append a tensor-conversion step
for PIL or numpy inputs, then the fused/plain rescale-normalize step, then
the resize step, exactly as the Python `transforms.append` sequence does. -/
def buildTransforms (doResize : Bool) (size : SizeD) (resample : Resample)
    (antialias : Bool) (doRescale : Bool) (rescaleFactor : ℚ)
    (doNormalize : Bool) (imageMean imageStd : List ℚ)
    (imageType : ImageType) : List Transform :=
  let transforms : List Transform := []
  let transforms :=
    match imageType with
    | .pil => transforms ++ [.pilToTensor]
    | .numpy => transforms ++ [.numpyToTensor]
    | _ => transforms
  let transforms :=
    if doRescale && doNormalize then
      transforms ++ [.fusedRescaleNormalize imageMean imageStd rescaleFactor]
    else if doRescale then
      transforms ++ [.rescale rescaleFactor]
    else if doNormalize then
      transforms ++ [.normalize imageMean imageStd]
    else transforms
  let transforms :=
    if doResize then
      transforms ++ [.resize size resample antialias]
    else transforms
  transforms

/-- Opaque conversion of the external libraries' `PILToTensor` /
`NumpyToTensor` steps: a raw PIL image or numpy array (its payload
represented as a `Tensor`) becomes a channel-first tensor.  Its contract
(a rank-3 channel-first result with unchanged values) is hypothesised
where a claim needs it. -/
def ConvFn : Type := ImageType → Tensor → Tensor

/-- Elementwise map with a channel index, for the per-channel normalize
steps on a channel-first tensor: element `i` of the flat data belongs to
channel `i / (product of the non-channel extents)`. -/
def mapChannels (f : Nat → ℚ → ℚ) (t : Tensor) : Tensor :=
  let chunk := t.shape.tail.prod
  ⟨t.shape, t.data.mapIdx (fun i x => f (i / chunk) x)⟩

/-- Embeds `torchvision.transforms.Resize((h, w), interpolation, antialias)` on
the rank-3 channel-first tensors this processor feeds it: the two trailing
extents are replaced by the target size and the data is produced by the
opaque interpolation kernel.  (For other ranks the external library has
its own semantics; this file only ever applies it to rank-3 images.) -/
def resizeTensor (rz : InterpFn) (resample : Resample) (antialias : Bool)
    (size : SizeD) (t : Tensor) : Tensor :=
  match t.shape with
  | [c, h, w] => ⟨[c, size.height, size.width],
      rz resample antialias (h, w) (size.height, size.width) t.data⟩
  | _ => t

/-- Semantics of one transform step.
`Rescale` and `FusedRescaleNormalize` live in the repository's
`image_transforms` module, which is not part of the sources here.
Modelled from the spec: `Rescale` computes `x * rescale_factor`;
`FusedRescaleNormalize` computes `(x * rescale_factor - mean) / std` per
channel; `Normalize` (external) computes `(x - mean) / std` per channel. -/
def applyStep (conv : ConvFn) (rz : InterpFn) : Transform → Tensor → Tensor
  | .pilToTensor, x => conv .pil x
  | .numpyToTensor, x => conv .numpy x
  | .fusedRescaleNormalize mean std r, x =>
      mapChannels (fun c v => (v * r - mean.getD c 0) / std.getD c 1) x
  | .rescale r, x => ⟨x.shape, x.data.map (fun v => v * r)⟩
  | .normalize mean std, x =>
      mapChannels (fun c v => (v - mean.getD c 0) / std.getD c 1) x
  | .resize sz rs aa, x => resizeTensor rz rs aa sz x

/-- Embeds `Compose(transforms)(image)`: apply the steps in order. -/
def applyTransformList (conv : ConvFn) (rz : InterpFn)
    (steps : List Transform) (x : Tensor) : Tensor :=
  steps.foldl (fun acc t => applyStep conv rz t acc) x

/-- The processor state set up by `__init__` (lines 98-122).  The fields
whose constructor arguments are documented as *optional* are `Option`s;
`do_*` flags are booleans. -/
structure Processor where
  do_resize : Bool
  size : Option SizeD
  resample : Option Resample
  antialias : Option Bool
  do_rescale : Bool
  rescale_factor : Option ℚ
  do_normalize : Bool
  image_mean : Option (List ℚ)
  image_std : Option (List ℚ)
deriving DecidableEq

/-- The call-time arguments of `preprocess` (lines 201-216): every
processing parameter is optional (`None` = unset, fall back to the
processor default); `return_tensors` defaults to `"pt"` and `data_format`
to channel-first. -/
structure PreprocessArgs where
  do_resize : Option Bool := none
  size : Option SizeD := none
  resample : Option Resample := none
  antialias : Option Bool := none
  do_rescale : Option Bool := none
  rescale_factor : Option ℚ := none
  do_normalize : Option Bool := none
  image_mean : Option (List ℚ) := none
  image_std : Option (List ℚ) := none
  return_tensors : String := "pt"
  data_format : ChannelDim := .first
deriving DecidableEq

/-- The parameters after the merge of overrides onto defaults. -/
structure MergedArgs where
  do_resize : Bool
  size : Option SizeD
  resample : Option Resample
  antialias : Option Bool
  do_rescale : Bool
  rescale_factor : Option ℚ
  do_normalize : Bool
  image_mean : Option (List ℚ)
  image_std : Option (List ℚ)
  return_tensors : String
  data_format : ChannelDim
deriving DecidableEq

/-- Lines 258-270 of `preprocess`: each unset override falls back to the
instance attribute.  (The `SizeDict`/tuple conversions at lines 268-270
only make the values hashable for the cache and are semantically the
identity here.) -/
def mergeArgs (p : Processor) (a : PreprocessArgs) : MergedArgs :=
  { do_resize := a.do_resize.getD p.do_resize
  , size := a.size.orElse (fun _ => p.size)
  , resample := a.resample.orElse (fun _ => p.resample)
  , antialias := a.antialias.orElse (fun _ => p.antialias)
  , do_rescale := a.do_rescale.getD p.do_rescale
  , rescale_factor := a.rescale_factor.orElse (fun _ => p.rescale_factor)
  , do_normalize := a.do_normalize.getD p.do_normalize
  , image_mean := a.image_mean.orElse (fun _ => p.image_mean)
  , image_std := a.image_std.orElse (fun _ => p.image_std)
  , return_tensors := a.return_tensors
  , data_format := a.data_format }

/-- Embeds `_validate_input_arguments` (lines 170-199), check for check.  The
`imageType` argument is accepted (it is part of the cached signature) but
not inspected, as in the source. -/
def validateInputArguments (returnTensors : String) (doResize : Bool)
    (size : Option SizeD) (resample : Option Resample)
    (antialias : Option Bool) (doRescale : Bool)
    (rescaleFactor : Option ℚ) (doNormalize : Bool)
    (imageMean imageStd : Option (List ℚ)) (dataFormat : ChannelDim)
    (imageType : ImageType) : Except PError Unit :=
  if returnTensors ≠ "pt" then
    .error (.valueError "Only returning PyTorch tensors is currently supported.")
  else if dataFormat ≠ ChannelDim.first then
    .error (.valueError "Only channel first data format is currently supported.")
  else if doResize && (size.isNone || resample.isNone || antialias.isNone) then
    .error (.valueError "Size, resample and antialias must be specified if do_resize is True.")
  else if doRescale && rescaleFactor.isNone then
    .error (.valueError "Rescale factor must be specified if do_rescale is True.")
  else if doNormalize && (imageMean.isNone || imageStd.isNone) then
    .error (.valueError "Image mean and standard deviation must be specified if do_normalize is True.")
  else
    .ok ()

/-- Embeds `get_image_type(images[0])` at line 273: the detected element type of
the first image.  (An empty batch fails already inside the external
`make_list_of_images` utility; it is folded into the unsupported-type
failure here.) -/
def detectedImageType (images : List (ImageType × Tensor)) : ImageType :=
  match images with
  | [] => .other
  | img :: _ => img.1

/-- Embeds `torch.stack(ts, dim=0)`: requires a non-empty list of tensors of
identical shape and prepends a batch dimension, concatenating the data. -/
def stackTensors (ts : List Tensor) : Except PError Tensor :=
  match ts with
  | [] => .error (.runtimeError "stack expects a non-empty TensorList")
  | t :: rest =>
    if rest.all (fun u => u.shape = t.shape) then
      .ok ⟨ts.length :: t.shape, (ts.map Tensor.data).flatten⟩
    else
      .error (.runtimeError "stack expects each tensor to be equal size")

/-- The call to `get_transforms` at lines 293-304 with the merged
arguments.  The `getD` defaults are only ever read on branches the passed
validation has made unreachable (e.g. `size` is known to be set whenever
`do_resize` makes the resize branch consult it). -/
def mergedSteps (m : MergedArgs) (imageType : ImageType) : List Transform :=
  buildTransforms m.do_resize (m.size.getD ⟨0, 0⟩) (m.resample.getD .bilinear)
    (m.antialias.getD false) m.do_rescale (m.rescale_factor.getD 0)
    m.do_normalize (m.image_mean.getD []) (m.image_std.getD []) imageType

/-- Embeds `preprocess` (lines 201-308): merge overrides onto defaults, detect
the input image type, reject unsupported types (line 275), validate the
merged arguments (line 278), build the composed transform (line 293),
apply it to every image, stack the results and return them under the fixed
`"pixel_values"` key (line 307).  Each image carries its element-type tag
and its raw payload. -/
def preprocessModel (conv : ConvFn) (rz : InterpFn) (p : Processor)
    (images : List (ImageType × Tensor)) (a : PreprocessArgs) :
    Except PError (List (String × Tensor)) :=
  let m := mergeArgs p a
  let imageType := detectedImageType images
  if imageType ∉ [ImageType.pil, ImageType.torch, ImageType.numpy] then
    .error (.valueError "Unsupported input image type")
  else
    match validateInputArguments m.return_tensors m.do_resize m.size
        m.resample m.antialias m.do_rescale m.rescale_factor m.do_normalize
        m.image_mean m.image_std m.data_format imageType with
    | .error e => .error e
    | .ok _ =>
      let steps := mergedSteps m imageType
      let transformed := images.map (fun img => applyTransformList conv rz steps img.2)
      match stackTensors transformed with
      | .error e => .error e
      | .ok t => .ok [("pixel_values", t)]

/-- The conversion segment of `_build_transforms` (lines 144-148). -/
def convSteps : ImageType → List Transform
  | .pil => [.pilToTensor]
  | .numpy => [.numpyToTensor]
  | _ => []

/-- The rescale/normalize segment of `_build_transforms` (lines 150-156). -/
def scaleSteps (doRescale doNormalize : Bool) (mean std : List ℚ)
    (factor : ℚ) : List Transform :=
  if doRescale && doNormalize then [.fusedRescaleNormalize mean std factor]
  else if doRescale then [.rescale factor]
  else if doNormalize then [.normalize mean std]
  else []

/-- The resize segment of `_build_transforms` (lines 158-166). -/
def resizeSteps (doResize : Bool) (size : SizeD) (resample : Resample)
    (antialias : Bool) : List Transform :=
  if doResize then [.resize size resample antialias] else []

/-- Decidable equality on `Except`, so that witnesses can evaluate results
by `decide`. -/
instance [DecidableEq ε] [DecidableEq α] : DecidableEq (Except ε α)
  | .error a, .error b => decidable_of_iff (a = b) (by simp)
  | .error _, .ok _ => .isFalse (by simp)
  | .ok _, .error _ => .isFalse (by simp)
  | .ok a, .ok b => decidable_of_iff (a = b) (by simp)

/-! ## Concrete instances used by witnesses and counterexamples -/

/-- A concrete interpolation kernel (constant extrapolation of the first
input value), used only to instantiate the opaque library kernel in
witnesses and counterexamples. -/
def constInterp : InterpFn :=
  fun _ _ _ size d => List.replicate (size.1 * size.2) (d.headD 0)

/-- A concrete conversion (identity on the payload), used only to
instantiate the opaque conversion in witnesses and counterexamples. -/
def idConv : ConvFn := fun _ t => t

/-- A concrete 1×2 depth map used in witnesses. -/
def depthA : Tensor := ⟨[1, 2], [2, 100000]⟩

/-- A conversion used to show transform-independence in the C8 witness. -/
def nullConv : ConvFn := fun _ _ => ⟨[], []⟩

/-- A resize-enabled processor used in the C9 witness. -/
def procR : Processor :=
  ⟨true, some ⟨2, 3⟩, some .bilinear, some false, false, none, false, none, none⟩

/-- All-default call arguments used in the C9 witness. -/
def argsDefault : PreprocessArgs :=
  ⟨none, none, none, none, none, none, none, none, none, "pt", .first⟩

/-- A 1×2×2 channel-first torch image used in the C9 witness. -/
def imgT : ImageType × Tensor := (ImageType.torch, ⟨[1, 2, 2], [1, 2, 3, 4]⟩)

/-! ## Helper lemmas -/

/-- The per-sample results once both length checks have passed:
one `processSample` application per `zip` triple, in order. -/
def sampleResults (interp : InterpFn) (tanF d2r : ℚ → ℚ) (resample : Resample)
    (antialias : Bool) (predictedDepths : List Tensor)
    (fovs : Option (List (Option ℚ)))
    (targetSizes : Option (List (Option (Nat × Nat)))) :
    List (Tensor × Option ℚ) :=
  (predictedDepths.zip
      ((fovEntries predictedDepths.length fovs).zip
        (tsEntries predictedDepths.length targetSizes))).map
    (fun p => processSample interp tanF d2r resample antialias p.1 p.2.1 p.2.2)

theorem postProcess_ok_of (interp : InterpFn) (tanF d2r : ℚ → ℚ)
    (resample : Resample) (antialias : Bool) (depths : List Tensor)
    (fovs : Option (List (Option ℚ)))
    (tss : Option (List (Option (Nat × Nat))))
    (hf : hasLengthMismatch depths.length fovs = false)
    (ht : hasLengthMismatch depths.length tss = false) :
    postProcessDepthEstimation interp tanF d2r resample antialias depths fovs tss =
      .ok { predicted_depth :=
              (sampleResults interp tanF d2r resample antialias depths fovs tss).map Prod.fst
          , fov := if fovs.isSome then
              some ((sampleResults interp tanF d2r resample antialias depths fovs tss).filterMap Prod.snd)
            else none } := by
  simp [postProcessDepthEstimation, hf, ht, sampleResults]

theorem postProcess_ok_inv (interp : InterpFn) (tanF d2r : ℚ → ℚ)
    (resample : Resample) (antialias : Bool) (depths : List Tensor)
    (fovs : Option (List (Option ℚ)))
    (tss : Option (List (Option (Nat × Nat)))) (out : PostOutputs)
    (h : postProcessDepthEstimation interp tanF d2r resample antialias depths fovs tss = .ok out) :
    hasLengthMismatch depths.length fovs = false ∧
    hasLengthMismatch depths.length tss = false ∧
    out = { predicted_depth :=
              (sampleResults interp tanF d2r resample antialias depths fovs tss).map Prod.fst
          , fov := if fovs.isSome then
              some ((sampleResults interp tanF d2r resample antialias depths fovs tss).filterMap Prod.snd)
            else none } := by
  by_cases hf : hasLengthMismatch depths.length fovs
  · rw [postProcessDepthEstimation, if_pos hf] at h
    exact absurd h (by simp)
  · by_cases ht : hasLengthMismatch depths.length tss
    · rw [postProcessDepthEstimation, if_neg hf, if_pos ht] at h
      exact absurd h (by simp)
    · refine ⟨by simpa using hf, by simpa using ht, ?_⟩
      rw [postProcess_ok_of interp tanF d2r resample antialias depths fovs tss
        (by simpa using hf) (by simpa using ht)] at h
      exact (Except.ok.injEq _ _ ▸ h.symm)

/-- Indexing into the per-sample results list. -/
theorem sampleResults_getElem (interp : InterpFn) (tanF d2r : ℚ → ℚ)
    (resample : Resample) (antialias : Bool) (depths : List Tensor)
    (fovs : Option (List (Option ℚ)))
    (tss : Option (List (Option (Nat × Nat)))) (i : Nat) (d : Tensor)
    (fv : Option ℚ) (ts : Option (Nat × Nat))
    (hd : depths[i]? = some d)
    (hf : (fovEntries depths.length fovs)[i]? = some fv)
    (ht : (tsEntries depths.length tss)[i]? = some ts) :
    (sampleResults interp tanF d2r resample antialias depths fovs tss)[i]? =
      some (processSample interp tanF d2r resample antialias d fv ts) := by
  unfold sampleResults
  rw [List.getElem?_map, List.zip, List.getElem?_zipWith, hd, List.zip,
    List.getElem?_zipWith, hf, ht]
  rfl

end DepthPro

namespace DepthPro

/-! ## Claims about `post_process_depth_estimation` -/

/-- C1: for every sample of `post_process_depth_estimation` for which no
target size and no fov value is given, the output depth map equals the
elementwise reciprocal of the input depth map clamped to
`[1e-4, 1e4]`. -/
theorem postProcess_no_target_no_fov_inverts (interp : InterpFn)
    (tanF d2r : ℚ → ℚ) (resample : Resample) (antialias : Bool)
    (depths : List Tensor) (fovs : Option (List (Option ℚ)))
    (tss : Option (List (Option (Nat × Nat)))) (out : PostOutputs)
    (i : Nat) (d : Tensor)
    (h : postProcessDepthEstimation interp tanF d2r resample antialias depths fovs tss = .ok out)
    (hd : depths[i]? = some d)
    (hf : (fovEntries depths.length fovs)[i]? = some none)
    (ht : (tsEntries depths.length tss)[i]? = some none) :
    out.predicted_depth[i]? =
      some ⟨d.shape, d.data.map (fun x => 1 / clampQ ((1 : ℚ)/10000) 10000 x)⟩ := by
  obtain ⟨-, -, rfl⟩ := postProcess_ok_inv interp tanF d2r resample antialias
    depths fovs tss out h
  rw [List.getElem?_map,
    sampleResults_getElem interp tanF d2r resample antialias depths fovs tss i d none none hd hf ht]
  simp [processSample, Tensor.invDepth, invDepthElem]

/-- Witness for C1 at a concrete input: depth `[2, 100000]`, no fovs, no
target sizes; the output is `[1/2, 1/10000]` (the second entry is first
clamped to `1e4`). -/
theorem postProcess_no_target_no_fov_inverts_witness :
    (PostOutputs.mk [⟨[1, 2], [(1 : ℚ)/2, (1 : ℚ)/10000]⟩] none).predicted_depth[0]? =
      some ⟨depthA.shape, depthA.data.map (fun x => 1 / clampQ ((1 : ℚ)/10000) 10000 x)⟩ :=
  postProcess_no_target_no_fov_inverts constInterp id id .bilinear false
    [depthA] none none _ 0 depthA
    (by rw [postProcess_ok_of constInterp id id .bilinear false [depthA] none none rfl rfl]
        norm_num [sampleResults, fovEntries, tsEntries, processSample, Tensor.invDepth,
          invDepthElem, clampQ, min_def, max_def, depthA])
    (by rfl) (by rfl) (by rfl)

/-- C2: for every sample with both a target size `(th, tw)` and a fov
value, the corrected focal scalar is `f = 0.5 * tw / tan(0.5 * radians(fov))`,
the raw depth map is multiplied elementwise by `tw / f` before the
interpolation and the inversion, and `f` is the value this sample
contributes to the fov output list. -/
theorem processSample_fov_scaling (interp : InterpFn) (tanF d2r : ℚ → ℚ)
    (resample : Resample) (antialias : Bool) (d : Tensor) (fv : ℚ)
    (th tw : Nat) :
    processSample interp tanF d2r resample antialias d (some fv) (some (th, tw)) =
      ((interpolateNCHW interp resample antialias (th, tw)
          ((Tensor.mk d.shape
              (d.data.map (fun x => x * ((tw : ℚ) / focal tanF d2r (tw : ℚ) fv)))).unsqueeze 0
            |>.unsqueeze 1)).squeezeAll.invDepth,
        some (focal tanF d2r (tw : ℚ) fv)) ∧
    focal tanF d2r (tw : ℚ) fv = (1/2 : ℚ) * (tw : ℚ) / tanF ((1/2 : ℚ) * d2r fv) := by
  refine ⟨?_, rfl⟩
  show ((interpolateNCHW interp resample antialias (th, tw)
      ((Tensor.mk d.shape
          (d.data.map (fun x => x * (tw : ℚ) / focal tanF d2r (tw : ℚ) fv))).unsqueeze 0
        |>.unsqueeze 1)).squeezeAll.invDepth,
    some (focal tanF d2r (tw : ℚ) fv)) = _
  have : d.data.map (fun x => x * (tw : ℚ) / focal tanF d2r (tw : ℚ) fv) =
      d.data.map (fun x => x * ((tw : ℚ) / focal tanF d2r (tw : ℚ) fv)) :=
    List.map_congr_left (fun x _ => mul_div_assoc x _ _)
  rw [this]

/-- C3: the call fails if and only if `fovs` is given with a length
different from the number of depth maps, or `target_sizes` is given with a
length different from the number of depth maps; any such failure is the
length-mismatch `ValueError`, produced before any per-sample work. -/
theorem postProcess_error_iff_length_mismatch (interp : InterpFn)
    (tanF d2r : ℚ → ℚ) (resample : Resample) (antialias : Bool)
    (depths : List Tensor) (fovs : Option (List (Option ℚ)))
    (tss : Option (List (Option (Nat × Nat)))) :
    ((∃ e, postProcessDepthEstimation interp tanF d2r resample antialias depths fovs tss = .error e) ↔
      ((∃ fs, fovs = some fs ∧ fs.length ≠ depths.length) ∨
        (∃ ts, tss = some ts ∧ ts.length ≠ depths.length))) ∧
    ((postProcessDepthEstimation interp tanF d2r resample antialias depths fovs tss =
        .error (.valueError lengthMismatchMsg)) ↔
      ((∃ fs, fovs = some fs ∧ fs.length ≠ depths.length) ∨
        (∃ ts, tss = some ts ∧ ts.length ≠ depths.length))) := by
  have hcond : (hasLengthMismatch depths.length fovs = true ∨
      hasLengthMismatch depths.length tss = true) ↔
      ((∃ fs, fovs = some fs ∧ fs.length ≠ depths.length) ∨
        (∃ ts, tss = some ts ∧ ts.length ≠ depths.length)) := by
    constructor
    · rintro (hm | hm)
      · cases fovs with
        | none => simp [hasLengthMismatch] at hm
        | some fs =>
          exact Or.inl ⟨fs, rfl,
            Ne.symm (by simpa [hasLengthMismatch] using hm)⟩
      · cases tss with
        | none => simp [hasLengthMismatch] at hm
        | some ts =>
          exact Or.inr ⟨ts, rfl,
            Ne.symm (by simpa [hasLengthMismatch] using hm)⟩
    · rintro (⟨fs, rfl, hne⟩ | ⟨ts, rfl, hne⟩)
      · exact Or.inl (by simpa [hasLengthMismatch] using hne.symm)
      · exact Or.inr (by simpa [hasLengthMismatch] using hne.symm)
  constructor
  · rw [← hcond]
    constructor
    · rintro ⟨e, he⟩
      by_contra hno
      push_neg at hno
      rw [postProcess_ok_of interp tanF d2r resample antialias depths fovs tss
        (by simpa using hno.1) (by simpa using hno.2)] at he
      exact absurd he (by simp)
    · rintro (hm | hm)
      · exact ⟨_, by rw [postProcessDepthEstimation, if_pos hm]⟩
      · by_cases hf : hasLengthMismatch depths.length fovs
        · exact ⟨_, by rw [postProcessDepthEstimation, if_pos hf]⟩
        · exact ⟨_, by rw [postProcessDepthEstimation,
            if_neg (by simpa using hf), if_pos hm]⟩
  · rw [← hcond]
    constructor
    · intro he
      by_contra hno
      push_neg at hno
      rw [postProcess_ok_of interp tanF d2r resample antialias depths fovs tss
        (by simpa using hno.1) (by simpa using hno.2)] at he
      exact absurd he (by simp)
    · rintro (hm | hm)
      · rw [postProcessDepthEstimation, if_pos hm]
      · by_cases hf : hasLengthMismatch depths.length fovs
        · rw [postProcessDepthEstimation, if_pos hf]
        · rw [postProcessDepthEstimation, if_neg (by simpa using hf), if_pos hm]

/-- The per-sample fov-list contribution: a value is produced exactly when
both a target size and a fov are present, and it is the corrected focal. -/
theorem processSample_snd (interp : InterpFn) (tanF d2r : ℚ → ℚ)
    (resample : Resample) (antialias : Bool) (d : Tensor) (fv : Option ℚ)
    (ts : Option (Nat × Nat)) :
    (processSample interp tanF d2r resample antialias d fv ts).2 =
      match fv, ts with
      | some f, some t => some (focal tanF d2r (t.2 : ℚ) f)
      | _, _ => none := by
  cases fv <;> cases ts <;> rfl

theorem zip_map_filterMap_snd (interp : InterpFn) (tanF d2r : ℚ → ℚ)
    (resample : Resample) (antialias : Bool) (ds : List Tensor)
    (ps : List (Option ℚ × Option (Nat × Nat))) (hl : ps.length ≤ ds.length) :
    ((ds.zip ps).map
        (fun p => processSample interp tanF d2r resample antialias p.1 p.2.1 p.2.2)).filterMap
      Prod.snd =
      ps.filterMap (fun p =>
        match p.1, p.2 with
        | some f, some t => some (focal tanF d2r (t.2 : ℚ) f)
        | _, _ => none) := by
  induction ds generalizing ps with
  | nil =>
    have : ps = [] := List.length_eq_zero.mp (Nat.le_zero.mp hl)
    simp [this]
  | cons d ds ih =>
    cases ps with
    | nil => simp
    | cons p ps =>
      simp only [List.zip_cons_cons, List.map_cons, List.filterMap_cons,
        processSample_snd]
      rw [ih ps (by simpa using hl)]

theorem sampleResults_length (interp : InterpFn) (tanF d2r : ℚ → ℚ)
    (resample : Resample) (antialias : Bool) (depths : List Tensor)
    (fovs : Option (List (Option ℚ)))
    (tss : Option (List (Option (Nat × Nat))))
    (hf : hasLengthMismatch depths.length fovs = false)
    (ht : hasLengthMismatch depths.length tss = false) :
    (sampleResults interp tanF d2r resample antialias depths fovs tss).length =
      depths.length := by
  unfold sampleResults
  simp only [List.length_map, List.length_zip, fovEntries, tsEntries]
  cases fovs <;> cases tss <;>
    simp [hasLengthMismatch, decide_eq_false_iff_not] at hf ht ⊢ <;> omega

theorem entries_length (depths : List Tensor)
    (fovs : Option (List (Option ℚ)))
    (tss : Option (List (Option (Nat × Nat))))
    (hf : hasLengthMismatch depths.length fovs = false)
    (ht : hasLengthMismatch depths.length tss = false) :
    (fovEntries depths.length fovs).length = depths.length ∧
      (tsEntries depths.length tss).length = depths.length := by
  cases fovs <;> cases tss <;>
    simp [hasLengthMismatch, fovEntries, tsEntries,
      decide_eq_false_iff_not] at hf ht ⊢ <;> omega

/-- C4 (amended): the `fov` output is `None` as a whole exactly when no
`fovs` argument was supplied; when it was supplied, the list holds, in
sample order, exactly one corrected focal per sample that had **both** a
target size and a fov entry (not per sample that had a target size); the
`predicted_depth` list always has exactly one entry per input sample, in
input order. -/
theorem postProcess_fov_alignment (interp : InterpFn) (tanF d2r : ℚ → ℚ)
    (resample : Resample) (antialias : Bool) (depths : List Tensor)
    (fovs : Option (List (Option ℚ)))
    (tss : Option (List (Option (Nat × Nat)))) (out : PostOutputs)
    (h : postProcessDepthEstimation interp tanF d2r resample antialias depths fovs tss = .ok out) :
    (out.fov = none ↔ fovs = none) ∧
    out.predicted_depth.length = depths.length ∧
    (∀ (i : Nat) (d : Tensor) (fv : Option ℚ) (ts : Option (Nat × Nat)),
      depths[i]? = some d →
      (fovEntries depths.length fovs)[i]? = some fv →
      (tsEntries depths.length tss)[i]? = some ts →
      out.predicted_depth[i]? =
        some (processSample interp tanF d2r resample antialias d fv ts).1) ∧
    (fovs.isSome →
      out.fov = some
        (((fovEntries depths.length fovs).zip (tsEntries depths.length tss)).filterMap
          (fun p => match p.1, p.2 with
            | some f, some t => some (focal tanF d2r (t.2 : ℚ) f)
            | _, _ => none))) := by
  obtain ⟨hf, ht, rfl⟩ := postProcess_ok_inv interp tanF d2r resample antialias
    depths fovs tss out h
  refine ⟨?_, ?_, ?_, ?_⟩
  · cases fovs <;> simp
  · rw [List.length_map]
    exact sampleResults_length interp tanF d2r resample antialias depths fovs tss hf ht
  · intro i d fv ts hd hfi hti
    rw [List.getElem?_map, sampleResults_getElem interp tanF d2r resample antialias
      depths fovs tss i d fv ts hd hfi hti]
    rfl
  · intro hs
    simp only [hs, if_true]
    have hlen := (entries_length depths fovs tss hf ht)
    have hl : ((fovEntries depths.length fovs).zip (tsEntries depths.length tss)).length ≤
        depths.length := by
      rw [List.length_zip, hlen.1, hlen.2]
      omega
    rw [show (sampleResults interp tanF d2r resample antialias depths fovs tss) =
        ((depths.zip ((fovEntries depths.length fovs).zip (tsEntries depths.length tss))).map
          (fun p => processSample interp tanF d2r resample antialias p.1 p.2.1 p.2.2)) from rfl,
      zip_map_filterMap_snd interp tanF d2r resample antialias depths _ hl]

/-- Counterexample to C4 as stated: one sample with a target size, `fovs`
supplied (with a `None` entry for that sample, which the guard at line 367
skips): the returned fov list is empty rather than holding one corrected
value for the sample that had a target size. -/
theorem postProcess_fov_alignment_cex :
    (postProcessDepthEstimation constInterp id id .bilinear false [depthA]
        (some [none]) (some [some (2, 2)])).map (fun o => o.fov) = .ok (some []) ∧
    ([some (2, 2)] : List (Option (Nat × Nat))).countP Option.isSome = 1 := by
  constructor
  · rfl
  · rfl

/-- Witness for C4 (amended) at a concrete input: one depth map, `fovs`
supplied with a fov for the sample but no target size, so the fov output
list is present but empty. -/
theorem postProcess_fov_alignment_witness :
    ((PostOutputs.mk [⟨[1, 2], [(1 : ℚ)/2, (1 : ℚ)/10000]⟩] (some [])).fov = none ↔
      (some [some (60 : ℚ)] : Option (List (Option ℚ))) = none) ∧
    (PostOutputs.mk [⟨[1, 2], [(1 : ℚ)/2, (1 : ℚ)/10000]⟩] (some [])).predicted_depth.length =
      [depthA].length ∧
    (∀ (i : Nat) (d : Tensor) (fv : Option ℚ) (ts : Option (Nat × Nat)),
      [depthA][i]? = some d →
      (fovEntries [depthA].length (some [some (60 : ℚ)]))[i]? = some fv →
      (tsEntries [depthA].length (some [none]))[i]? = some ts →
      (PostOutputs.mk [⟨[1, 2], [(1 : ℚ)/2, (1 : ℚ)/10000]⟩] (some [])).predicted_depth[i]? =
        some (processSample constInterp id id .bilinear false d fv ts).1) ∧
    ((some [some (60 : ℚ)] : Option (List (Option ℚ))).isSome →
      (PostOutputs.mk [⟨[1, 2], [(1 : ℚ)/2, (1 : ℚ)/10000]⟩] (some [])).fov = some
        (((fovEntries [depthA].length (some [some (60 : ℚ)])).zip
            (tsEntries [depthA].length (some [none]))).filterMap
          (fun p => match p.1, p.2 with
            | some f, some t => some (focal id id (t.2 : ℚ) f)
            | _, _ => none))) :=
  postProcess_fov_alignment constInterp id id .bilinear false [depthA]
    (some [some (60 : ℚ)]) (some [none]) _
    (by rw [postProcess_ok_of constInterp id id .bilinear false [depthA]
          (some [some (60 : ℚ)]) (some [none]) rfl rfl]
        norm_num [sampleResults, fovEntries, tsEntries, processSample, Tensor.invDepth,
          invDepthElem, clampQ, min_def, max_def, depthA])

/-- C5 (amended): for a sample with a target size `(th, tw)` and no fov,
the raw depth map is first interpolated to the target size with the
processor's configured resample filter and antialias setting, and only
then clamp-and-reciprocal inverted; the output shape is exactly
`(th, tw)` whenever both target dimensions exceed 1 (the unconditional
`squeeze()` at line 380 also drops any size-1 target dimension, so the
stated shape guarantee does not hold for degenerate target sizes). -/
theorem processSample_resize_then_invert (interp : InterpFn) (tanF d2r : ℚ → ℚ)
    (resample : Resample) (antialias : Bool) (d : Tensor) (h w th tw : Nat)
    (hd : d.shape = [h, w]) (hth : 1 < th) (htw : 1 < tw) :
    processSample interp tanF d2r resample antialias d none (some (th, tw)) =
      (⟨[th, tw], (interp resample antialias (h, w) (th, tw) d.data).map invDepthElem⟩,
        none) := by
  obtain ⟨sh, dat⟩ := d
  simp only [] at hd
  subst hd
  simp [processSample, interpolateNCHW, Tensor.unsqueeze, Tensor.squeezeAll,
    Tensor.invDepth, List.insertIdx_zero, List.insertIdx_succ_cons, List.filter,
    hth.ne', htw.ne']

/-- Counterexample to C5 as stated: with target size `(1, 2)` the
unconditional `squeeze()` also drops the size-1 target dimension, so the
output shape is `[2]`, not `[1, 2]`. -/
theorem processSample_resize_then_invert_cex :
    (processSample constInterp id id .bilinear false ⟨[2, 2], [1, 1, 1, 1]⟩ none
        (some (1, 2))).1.shape = [2] ∧ ([2] : List Nat) ≠ [1, 2] := by
  exact ⟨rfl, by decide⟩

/-- Witness for C5 (amended) at a concrete input: a 1×1 map resized to
`(2, 3)`. -/
theorem processSample_resize_then_invert_witness :
    processSample constInterp id id .bilinear false ⟨[1, 1], [5]⟩ none (some (2, 3)) =
      (⟨[2, 3], (constInterp .bilinear false (1, 1) (2, 3) [5]).map invDepthElem⟩, none) :=
  processSample_resize_then_invert constInterp id id .bilinear false ⟨[1, 1], [5]⟩ 1 1 2 3
    rfl (by decide) (by decide)

/-- Whatever the branch, the per-sample result is an `invDepth` image. -/
theorem processSample_fst_invDepth (interp : InterpFn) (tanF d2r : ℚ → ℚ)
    (resample : Resample) (antialias : Bool) (d : Tensor) (fv : Option ℚ)
    (ts : Option (Nat × Nat)) :
    ∃ u : Tensor, (processSample interp tanF d2r resample antialias d fv ts).1 =
      u.invDepth := by
  cases ts with
  | none => exact ⟨d, rfl⟩
  | some t => exact ⟨_, rfl⟩

/-- Each inverted element lies in `[1e-4, 1e4]`. -/
theorem invDepthElem_bounds (x : ℚ) :
    (1 : ℚ)/10000 ≤ invDepthElem x ∧ invDepthElem x ≤ 10000 := by
  unfold invDepthElem clampQ
  have h1 : (1 : ℚ)/10000 ≤ min (max x ((1 : ℚ)/10000)) 10000 :=
    le_min (le_max_right x _) (by norm_num)
  have h2 : min (max x ((1 : ℚ)/10000)) 10000 ≤ 10000 := min_le_right _ _
  have hpos : (0 : ℚ) < min (max x ((1 : ℚ)/10000)) 10000 :=
    lt_of_lt_of_le (by norm_num) h1
  constructor
  · exact one_div_le_one_div_of_le hpos h2
  · have := one_div_le_one_div_of_le (by norm_num : (0 : ℚ) < 1/10000) h1
    simpa using this

/-- C10: every element of every depth map returned by
`post_process_depth_estimation` lies in the closed interval
`[1e-4, 1e4]`, because the final step takes the reciprocal of a value
clamped to that interval. -/
theorem postProcess_output_in_range (interp : InterpFn) (tanF d2r : ℚ → ℚ)
    (resample : Resample) (antialias : Bool) (depths : List Tensor)
    (fovs : Option (List (Option ℚ)))
    (tss : Option (List (Option (Nat × Nat)))) (out : PostOutputs)
    (t : Tensor) (v : ℚ)
    (h : postProcessDepthEstimation interp tanF d2r resample antialias depths fovs tss = .ok out)
    (ht : t ∈ out.predicted_depth) (hv : v ∈ t.data) :
    (1 : ℚ)/10000 ≤ v ∧ v ≤ 10000 := by
  obtain ⟨hf, hts, rfl⟩ := postProcess_ok_inv interp tanF d2r resample antialias
    depths fovs tss out h
  simp only [List.mem_map] at ht
  obtain ⟨r, hr, rfl⟩ := ht
  unfold sampleResults at hr
  rw [List.mem_map] at hr
  obtain ⟨p, hp, rfl⟩ := hr
  obtain ⟨u, hu⟩ := processSample_fst_invDepth interp tanF d2r resample antialias
    p.1 p.2.1 p.2.2
  rw [hu] at hv
  simp only [Tensor.invDepth, List.mem_map] at hv
  obtain ⟨x, hx, rfl⟩ := hv
  exact invDepthElem_bounds x

/-- Witness for C10 at a concrete input. -/
theorem postProcess_output_in_range_witness :
    (1 : ℚ)/10000 ≤ (1 : ℚ)/2 ∧ ((1 : ℚ)/2) ≤ 10000 :=
  postProcess_output_in_range constInterp id id .bilinear false [depthA] none none
    (PostOutputs.mk [⟨[1, 2], [(1 : ℚ)/2, (1 : ℚ)/10000]⟩] none)
    ⟨[1, 2], [(1 : ℚ)/2, (1 : ℚ)/10000]⟩ ((1 : ℚ)/2)
    (by rw [postProcess_ok_of constInterp id id .bilinear false [depthA] none none rfl rfl]
        norm_num [sampleResults, fovEntries, tsEntries, processSample, Tensor.invDepth,
          invDepthElem, clampQ, min_def, max_def, depthA])
    (by simp) (by simp)

/-! ## Claims about `_build_transforms` and `preprocess` -/

/-- C6: `_build_transforms` produces the steps in the fixed order:
a tensor-conversion step if and only if the input element type is a PIL
image or a numpy array, then exactly one of {fused rescale-normalize,
rescale only, normalize only, nothing} according to the
`do_rescale`/`do_normalize` flags, then a resize step if and only if
`do_resize` is set; in particular rescale/normalize always precedes
resize. -/
theorem buildTransforms_fixed_order (doResize : Bool) (size : SizeD)
    (resample : Resample) (antialias : Bool) (doRescale : Bool)
    (rescaleFactor : ℚ) (doNormalize : Bool) (imageMean imageStd : List ℚ)
    (imageType : ImageType) :
    buildTransforms doResize size resample antialias doRescale rescaleFactor
        doNormalize imageMean imageStd imageType =
      (match imageType with
        | .pil => [Transform.pilToTensor]
        | .numpy => [Transform.numpyToTensor]
        | _ => []) ++
      (if doRescale && doNormalize then
        [Transform.fusedRescaleNormalize imageMean imageStd rescaleFactor]
      else if doRescale then [Transform.rescale rescaleFactor]
      else if doNormalize then [Transform.normalize imageMean imageStd]
      else []) ++
      (if doResize then [Transform.resize size resample antialias] else []) := by
  cases imageType <;> cases doRescale <;> cases doNormalize <;> cases doResize <;> rfl

/-- The same decomposition, through the named segment definitions. -/
theorem buildTransforms_decomp (doResize : Bool) (size : SizeD)
    (resample : Resample) (antialias : Bool) (doRescale : Bool)
    (rescaleFactor : ℚ) (doNormalize : Bool) (imageMean imageStd : List ℚ)
    (imageType : ImageType) :
    buildTransforms doResize size resample antialias doRescale rescaleFactor
        doNormalize imageMean imageStd imageType =
      convSteps imageType ++ scaleSteps doRescale doNormalize imageMean imageStd rescaleFactor ++
        resizeSteps doResize size resample antialias := by
  cases imageType <;> cases doRescale <;> cases doNormalize <;> cases doResize <;> rfl

theorem mapIdx_map (f : α → β) (g : Nat → β → γ) (l : List α) :
    (l.map f).mapIdx g = l.mapIdx (fun i v => g i (f v)) := by
  apply List.ext_getElem?
  intro i
  simp only [List.getElem?_mapIdx, List.getElem?_map, Option.map_map]
  rfl

/-- C7: the fused rescale-normalize step is mathematically equal to the
rescale step followed by the separate normalize step, for every input
tensor, per-channel mean, nonzero per-channel std and rescale factor. -/
theorem fusedRescaleNormalize_eq_rescale_then_normalize (conv : ConvFn)
    (rz : InterpFn) (mean std : List ℚ) (r : ℚ) (x : Tensor)
    (hstd : ∀ s ∈ std, s ≠ 0) :
    applyStep conv rz (.fusedRescaleNormalize mean std r) x =
      applyStep conv rz (.normalize mean std) (applyStep conv rz (.rescale r) x) := by
  unfold applyStep mapChannels
  simp only [Tensor.mk.injEq, true_and]
  rw [mapIdx_map]

/-- Witness for C7 at a concrete input. -/
theorem fusedRescaleNormalize_eq_rescale_then_normalize_witness :
    (∀ s ∈ [(2 : ℚ)], s ≠ 0) ∧
    applyStep idConv constInterp (.fusedRescaleNormalize [(1 : ℚ)] [(2 : ℚ)] ((1 : ℚ)/255))
        ⟨[1, 1, 1], [3]⟩ =
      applyStep idConv constInterp (.normalize [(1 : ℚ)] [(2 : ℚ)])
        (applyStep idConv constInterp (.rescale ((1 : ℚ)/255)) ⟨[1, 1, 1], [3]⟩) :=
  ⟨by norm_num,
    fusedRescaleNormalize_eq_rescale_then_normalize idConv constInterp
      [(1 : ℚ)] [(2 : ℚ)] ((1 : ℚ)/255) ⟨[1, 1, 1], [3]⟩ (by norm_num)⟩

/-- If validation succeeds, none of the checked conditions held. -/
theorem validate_ok_imp (returnTensors : String) (doResize : Bool)
    (size : Option SizeD) (resample : Option Resample)
    (antialias : Option Bool) (doRescale : Bool) (rescaleFactor : Option ℚ)
    (doNormalize : Bool) (imageMean imageStd : Option (List ℚ))
    (dataFormat : ChannelDim) (imageType : ImageType) (u : Unit)
    (h : validateInputArguments returnTensors doResize size resample antialias
      doRescale rescaleFactor doNormalize imageMean imageStd dataFormat imageType = .ok u) :
    returnTensors = "pt" ∧ dataFormat = ChannelDim.first ∧
    (doResize = true → size ≠ none ∧ resample ≠ none ∧ antialias ≠ none) ∧
    (doRescale = true → rescaleFactor ≠ none) ∧
    (doNormalize = true → imageMean ≠ none ∧ imageStd ≠ none) := by
  unfold validateInputArguments at h
  split_ifs at h with h1 h2 h3 h4 h5
  refine ⟨not_not.mp h1, not_not.mp h2, ?_, ?_, ?_⟩
  · intro hdr
    simp only [hdr, Bool.true_and, Bool.or_eq_true, Option.isNone_iff_eq_none,
      not_or] at h3
    exact ⟨h3.1.1, h3.1.2, h3.2⟩
  · intro hdr
    simp only [hdr, Bool.true_and, Option.isNone_iff_eq_none] at h4
    exact h4
  · intro hdr
    simp only [hdr, Bool.true_and, Bool.or_eq_true, Option.isNone_iff_eq_none,
      not_or] at h5
    exact h5

/-- Validation either succeeds or raises a `ValueError`. -/
theorem validate_error_form (returnTensors : String) (doResize : Bool)
    (size : Option SizeD) (resample : Option Resample)
    (antialias : Option Bool) (doRescale : Bool) (rescaleFactor : Option ℚ)
    (doNormalize : Bool) (imageMean imageStd : Option (List ℚ))
    (dataFormat : ChannelDim) (imageType : ImageType) :
    (∃ u, validateInputArguments returnTensors doResize size resample antialias
        doRescale rescaleFactor doNormalize imageMean imageStd dataFormat imageType = .ok u) ∨
    (∃ msg, validateInputArguments returnTensors doResize size resample antialias
        doRescale rescaleFactor doNormalize imageMean imageStd dataFormat imageType =
      .error (.valueError msg)) := by
  unfold validateInputArguments
  split_ifs <;> first
    | exact .inl ⟨_, rfl⟩
    | exact .inr ⟨_, rfl⟩

/-- C8: `preprocess` fails with the single invalid-argument error kind
(`ValueError`), before any transform touches any image, whenever — after
merging overrides onto defaults — the requested tensor backend is not
`"pt"`, the requested layout is not channel-first, `do_resize` is set with
`size`, `resample` or `antialias` unset, `do_rescale` is set with the
rescale factor unset, `do_normalize` is set with mean or std unset, or the
detected input image type is unsupported.  The result is the same for any
conversion/interpolation semantics, so no transform work is observable. -/
theorem preprocess_rejects_invalid_args (conv conv2 : ConvFn)
    (rz rz2 : InterpFn) (p : Processor) (images : List (ImageType × Tensor))
    (a : PreprocessArgs)
    (h : (mergeArgs p a).return_tensors ≠ "pt" ∨
      (mergeArgs p a).data_format ≠ ChannelDim.first ∨
      ((mergeArgs p a).do_resize = true ∧ ((mergeArgs p a).size = none ∨
        (mergeArgs p a).resample = none ∨ (mergeArgs p a).antialias = none)) ∨
      ((mergeArgs p a).do_rescale = true ∧ (mergeArgs p a).rescale_factor = none) ∨
      ((mergeArgs p a).do_normalize = true ∧ ((mergeArgs p a).image_mean = none ∨
        (mergeArgs p a).image_std = none)) ∨
      detectedImageType images ∉ [ImageType.pil, ImageType.torch, ImageType.numpy]) :
    (∃ msg, preprocessModel conv rz p images a = .error (.valueError msg)) ∧
    preprocessModel conv rz p images a = preprocessModel conv2 rz2 p images a := by
  by_cases hsupp : detectedImageType images ∈ [ImageType.pil, ImageType.torch, ImageType.numpy]
  · have hvcond : (mergeArgs p a).return_tensors ≠ "pt" ∨
        (mergeArgs p a).data_format ≠ ChannelDim.first ∨
        ((mergeArgs p a).do_resize = true ∧ ((mergeArgs p a).size = none ∨
          (mergeArgs p a).resample = none ∨ (mergeArgs p a).antialias = none)) ∨
        ((mergeArgs p a).do_rescale = true ∧ (mergeArgs p a).rescale_factor = none) ∨
        ((mergeArgs p a).do_normalize = true ∧ ((mergeArgs p a).image_mean = none ∨
          (mergeArgs p a).image_std = none)) := by
      rcases h with h | h | h | h | h | h
      · exact .inl h
      · exact .inr (.inl h)
      · exact .inr (.inr (.inl h))
      · exact .inr (.inr (.inr (.inl h)))
      · exact .inr (.inr (.inr (.inr h)))
      · exact absurd hsupp h
    rcases validate_error_form (mergeArgs p a).return_tensors
        (mergeArgs p a).do_resize (mergeArgs p a).size (mergeArgs p a).resample
        (mergeArgs p a).antialias (mergeArgs p a).do_rescale
        (mergeArgs p a).rescale_factor (mergeArgs p a).do_normalize
        (mergeArgs p a).image_mean (mergeArgs p a).image_std
        (mergeArgs p a).data_format (detectedImageType images) with
      hok | ⟨msg, hmsg⟩
    · exfalso
      obtain ⟨u, hu⟩ := hok
      obtain ⟨e1, e2, e3, e4, e5⟩ := validate_ok_imp _ _ _ _ _ _ _ _ _ _ _ _ u hu
      rcases hvcond with hc | hc | ⟨hc, hc'⟩ | ⟨hc, hc'⟩ | ⟨hc, hc'⟩
      · exact hc e1
      · exact hc e2
      · rcases hc' with hc' | hc' | hc'
        · exact (e3 hc).1 hc'
        · exact (e3 hc).2.1 hc'
        · exact (e3 hc).2.2 hc'
      · exact e4 hc hc'
      · rcases hc' with hc' | hc'
        · exact (e5 hc).1 hc'
        · exact (e5 hc).2 hc'
    · constructor
      · exact ⟨msg, by simp [preprocessModel, hsupp, hmsg]⟩
      · simp [preprocessModel, hsupp, hmsg]
  · constructor
    · exact ⟨"Unsupported input image type", by simp [preprocessModel, hsupp]⟩
    · simp [preprocessModel, hsupp]

/-- Witness for C8 at a concrete input: an unsupported tensor backend
(`"np"`) is rejected regardless of the transform kernels. -/
theorem preprocess_rejects_invalid_args_witness :
    (∃ msg, preprocessModel idConv constInterp
        (Processor.mk false none none none false none false none none)
        [(ImageType.torch, ⟨[1, 1, 1], [0]⟩)]
        (PreprocessArgs.mk none none none none none none none none none "np" .first) =
      .error (.valueError msg)) ∧
    preprocessModel idConv constInterp
        (Processor.mk false none none none false none false none none)
        [(ImageType.torch, ⟨[1, 1, 1], [0]⟩)]
        (PreprocessArgs.mk none none none none none none none none none "np" .first) =
      preprocessModel nullConv (fun _ _ _ _ _ => [])
        (Processor.mk false none none none false none false none none)
        [(ImageType.torch, ⟨[1, 1, 1], [0]⟩)]
        (PreprocessArgs.mk none none none none none none none none none "np" .first) :=
  preprocess_rejects_invalid_args idConv nullConv constInterp (fun _ _ _ _ _ => [])
    (Processor.mk false none none none false none false none none)
    [(ImageType.torch, ⟨[1, 1, 1], [0]⟩)]
    (PreprocessArgs.mk none none none none none none none none none "np" .first)
    (.inl (by decide))

theorem applyTransformList_append (conv : ConvFn) (rz : InterpFn)
    (l1 l2 : List Transform) (x : Tensor) :
    applyTransformList conv rz (l1 ++ l2) x =
      applyTransformList conv rz l2 (applyTransformList conv rz l1 x) :=
  List.foldl_append _ _ _ _

/-- The rescale/normalize segment never changes the shape. -/
theorem scaleSteps_shape (conv : ConvFn) (rz : InterpFn)
    (doRescale doNormalize : Bool) (mean std : List ℚ) (factor : ℚ)
    (x : Tensor) :
    (applyTransformList conv rz (scaleSteps doRescale doNormalize mean std factor) x).shape =
      x.shape := by
  cases doRescale <;> cases doNormalize <;>
    simp [scaleSteps, applyTransformList, applyStep, mapChannels]

/-- The resize segment maps a rank-3 channel-first shape to the target. -/
theorem resizeSteps_shape (conv : ConvFn) (rz : InterpFn) (size : SizeD)
    (resample : Resample) (antialias : Bool) (c hh ww : Nat) (x : Tensor)
    (hx : x.shape = [c, hh, ww]) :
    (applyTransformList conv rz (resizeSteps true size resample antialias) x).shape =
      [c, size.height, size.width] := by
  simp only [resizeSteps, if_true, applyTransformList, List.foldl_cons, List.foldl_nil,
    applyStep, resizeTensor, hx]

theorem stackTensors_ok_inv (ts : List Tensor) (t : Tensor)
    (h : stackTensors ts = .ok t) :
    ∃ t0 rest, ts = t0 :: rest ∧ (∀ u ∈ ts, u.shape = t0.shape) ∧
      t = ⟨ts.length :: t0.shape, (ts.map Tensor.data).flatten⟩ := by
  cases ts with
  | nil => exact absurd h (by simp [stackTensors])
  | cons t0 rest =>
    simp only [stackTensors] at h
    by_cases hall : (rest.all fun u => decide (u.shape = t0.shape)) = true
    · rw [if_pos hall] at h
      refine ⟨t0, rest, rfl, ?_, ?_⟩
      · intro u hu
        rcases List.mem_cons.mp hu with rfl | hu
        · rfl
        · exact of_decide_eq_true (List.all_eq_true.mp hall u hu)
      · injection h with h'
        exact h'.symm
    · rw [if_neg hall] at h
      exact absurd h (by simp)

theorem preprocessModel_ok_inv (conv : ConvFn) (rz : InterpFn) (p : Processor)
    (images : List (ImageType × Tensor)) (a : PreprocessArgs)
    (out : List (String × Tensor))
    (h : preprocessModel conv rz p images a = .ok out) :
    ∃ t, stackTensors (images.map (fun img => applyTransformList conv rz
        (mergedSteps (mergeArgs p a) (detectedImageType images)) img.2)) = .ok t ∧
      out = [("pixel_values", t)] := by
  by_cases hsupp : detectedImageType images ∈ [ImageType.pil, ImageType.torch, ImageType.numpy]
  · rcases hv : validateInputArguments (mergeArgs p a).return_tensors
        (mergeArgs p a).do_resize (mergeArgs p a).size (mergeArgs p a).resample
        (mergeArgs p a).antialias (mergeArgs p a).do_rescale
        (mergeArgs p a).rescale_factor (mergeArgs p a).do_normalize
        (mergeArgs p a).image_mean (mergeArgs p a).image_std
        (mergeArgs p a).data_format (detectedImageType images) with e | u
    · simp [preprocessModel, hsupp, hv] at h
    · rcases hs : stackTensors (images.map (fun img => applyTransformList conv rz
          (mergedSteps (mergeArgs p a) (detectedImageType images)) img.2)) with e | t
      · simp [preprocessModel, hsupp, hv, hs] at h
      · refine ⟨t, hs, ?_⟩
        simp only [preprocessModel, hsupp, hv, hs, not_true_eq_false,
          if_false, Except.ok.injEq] at h
        exact h.symm
  · simp [preprocessModel, hsupp] at h

/-- C9: for every valid call, `preprocess` applies the one composed
transform to every image, stacks the results along a new leading batch
dimension and returns them under the fixed `"pixel_values"` field name;
the stacked shape is `[N, C, targetHeight, targetWidth]` when resize is
enabled, and `N ::` the common transformed-image shape (that of the input
images after conversion) when it is not. -/
theorem preprocess_batches_and_stacks (conv : ConvFn) (rz : InterpFn)
    (p : Processor) (images : List (ImageType × Tensor)) (a : PreprocessArgs)
    (out : List (String × Tensor)) (c : Nat) (img0 : ImageType × Tensor)
    (h : preprocessModel conv rz p images a = .ok out)
    (h0 : images.head? = some img0)
    (hch : (mergeArgs p a).do_resize = true → ∀ img ∈ images, ∃ hh ww,
      (applyTransformList conv rz (convSteps (detectedImageType images)) img.2).shape =
        [c, hh, ww]) :
    ∃ t : Tensor,
      out = [("pixel_values", t)] ∧
      t.data = (images.map (fun img =>
        (applyTransformList conv rz
          (mergedSteps (mergeArgs p a) (detectedImageType images)) img.2).data)).flatten ∧
      ((mergeArgs p a).do_resize = true →
        t.shape = [images.length, c, ((mergeArgs p a).size.getD ⟨0, 0⟩).height,
          ((mergeArgs p a).size.getD ⟨0, 0⟩).width]) ∧
      ((mergeArgs p a).do_resize = false →
        t.shape = images.length ::
          (applyTransformList conv rz (convSteps (detectedImageType images)) img0.2).shape ∧
        ∀ img ∈ images,
          (applyTransformList conv rz (convSteps (detectedImageType images)) img.2).shape =
            (applyTransformList conv rz (convSteps (detectedImageType images)) img0.2).shape) := by
  obtain ⟨t, hstack, hout⟩ := preprocessModel_ok_inv conv rz p images a out h
  obtain ⟨t0, rest, hcons, hall, ht⟩ := stackTensors_ok_inv _ t hstack
  have himg0 : img0 ∈ images := by
    cases images with
    | nil => simp at h0
    | cons i is =>
      simp only [List.head?_cons, Option.some.injEq] at h0
      exact h0 ▸ List.mem_cons_self i is
  have hF0 : applyTransformList conv rz
      (mergedSteps (mergeArgs p a) (detectedImageType images)) img0.2 ∈
      images.map (fun img => applyTransformList conv rz
        (mergedSteps (mergeArgs p a) (detectedImageType images)) img.2) :=
    List.mem_map_of_mem _ himg0
  have hshapeF : ∀ img ∈ images,
      (applyTransformList conv rz
        (mergedSteps (mergeArgs p a) (detectedImageType images)) img.2).shape =
      (if (mergeArgs p a).do_resize then
        (applyTransformList conv rz
          (resizeSteps true ((mergeArgs p a).size.getD ⟨0, 0⟩)
            ((mergeArgs p a).resample.getD .bilinear)
            ((mergeArgs p a).antialias.getD false))
          (applyTransformList conv rz
            (scaleSteps (mergeArgs p a).do_rescale (mergeArgs p a).do_normalize
              ((mergeArgs p a).image_mean.getD []) ((mergeArgs p a).image_std.getD [])
              ((mergeArgs p a).rescale_factor.getD 0))
            (applyTransformList conv rz (convSteps (detectedImageType images)) img.2))).shape
      else
        (applyTransformList conv rz (convSteps (detectedImageType images)) img.2).shape) := by
    intro img hmem
    rw [mergedSteps, buildTransforms_decomp, applyTransformList_append,
      applyTransformList_append]
    by_cases hdr : (mergeArgs p a).do_resize
    · rw [if_pos hdr, hdr]
    · rw [if_neg hdr]
      have hdr' : (mergeArgs p a).do_resize = false := by
        simpa using hdr
      rw [hdr', resizeSteps, if_neg (by simp), applyTransformList]
      simp only [List.foldl_nil]
      exact scaleSteps_shape conv rz _ _ _ _ _ _
  refine ⟨t, hout, ?_, ?_, ?_⟩
  · rw [ht]
    simp only [List.map_map]
    rfl
  · intro hdr
    have hsh : ∀ img ∈ images,
        (applyTransformList conv rz
          (mergedSteps (mergeArgs p a) (detectedImageType images)) img.2).shape =
        [c, ((mergeArgs p a).size.getD ⟨0, 0⟩).height,
          ((mergeArgs p a).size.getD ⟨0, 0⟩).width] := by
      intro img hmem
      obtain ⟨hh, ww, hdec⟩ := hch hdr img hmem
      rw [hshapeF img hmem, if_pos (by rw [hdr])]
      rw [resizeSteps_shape conv rz _ _ _ c hh ww _
        (by rw [scaleSteps_shape]; exact hdec)]
    have ht0 : t0.shape = [c, ((mergeArgs p a).size.getD ⟨0, 0⟩).height,
        ((mergeArgs p a).size.getD ⟨0, 0⟩).width] := by
      have := hall _ hF0
      rw [← this, hsh img0 himg0]
    rw [ht, ht0]
    simp only [List.length_map]
  · intro hdr
    have hsh : ∀ img ∈ images,
        (applyTransformList conv rz
          (mergedSteps (mergeArgs p a) (detectedImageType images)) img.2).shape =
        (applyTransformList conv rz (convSteps (detectedImageType images)) img.2).shape := by
      intro img hmem
      rw [hshapeF img hmem, if_neg (by rw [hdr]; exact Bool.false_ne_true)]
    constructor
    · have ht0 : t0.shape =
          (applyTransformList conv rz (convSteps (detectedImageType images)) img0.2).shape := by
        have := hall _ hF0
        rw [← this, hsh img0 himg0]
      rw [ht, ht0]
      simp only [List.length_map]
    · intro img hmem
      have h1 := hall _ (List.mem_map_of_mem
        (fun img => applyTransformList conv rz
          (mergedSteps (mergeArgs p a) (detectedImageType images)) img.2) hmem)
      have h2 := hall _ hF0
      rw [← hsh img hmem, h1, ← h2, hsh img0 himg0]

/-- Witness for C9 at a concrete input: one 1×2×2 torch image resized to
`(2, 3)`; the stacked output has shape `[1, 1, 2, 3]`. -/
theorem preprocess_batches_and_stacks_witness :
    ∃ t : Tensor,
      [("pixel_values", (⟨[1, 1, 2, 3], List.replicate 6 (1 : ℚ)⟩ : Tensor))] =
        [("pixel_values", t)] ∧
      t.data = ([imgT].map (fun img =>
        (applyTransformList idConv constInterp
          (mergedSteps (mergeArgs procR argsDefault) (detectedImageType [imgT])) img.2).data)).flatten ∧
      ((mergeArgs procR argsDefault).do_resize = true →
        t.shape = [[imgT].length, 1, ((mergeArgs procR argsDefault).size.getD ⟨0, 0⟩).height,
          ((mergeArgs procR argsDefault).size.getD ⟨0, 0⟩).width]) ∧
      ((mergeArgs procR argsDefault).do_resize = false →
        t.shape = [imgT].length ::
          (applyTransformList idConv constInterp (convSteps (detectedImageType [imgT])) imgT.2).shape ∧
        ∀ img ∈ [imgT],
          (applyTransformList idConv constInterp (convSteps (detectedImageType [imgT])) img.2).shape =
            (applyTransformList idConv constInterp (convSteps (detectedImageType [imgT])) imgT.2).shape) :=
  preprocess_batches_and_stacks idConv constInterp procR [imgT] argsDefault
    [("pixel_values", ⟨[1, 1, 2, 3], List.replicate 6 (1 : ℚ)⟩)] 1 imgT
    (by rfl) (by rfl)
    (by intro _ img hmem
        rw [List.mem_singleton] at hmem
        subst hmem
        exact ⟨2, 2, rfl⟩)

end DepthPro
